import Mathlib

/-!
Shallow embedding of the core of `src/openai_assistant.py` and
`src/s3_uploader.py`: the `chat` event-stream interpreter, the
`_initialize_thread` session logic, the message-payload construction, the
`_create_s3_download_url` artifact resolver, and `S3Uploader.upload_file`.
Remote collaborators (OpenAI client, filesystem, S3) are modelled as
explicit outcome parameters; `None` optionals whose only use is a Python
truthiness test are modelled as the empty string / empty list, which is
observationally identical in this code.
-/

namespace AssistantModel

/-- The `text` sub-object of one item of `event.data.delta.content`. -/
structure DeltaText where
  value : String
  deriving DecidableEq

/-- One item of `event.data.delta.content` in a `thread.message.delta` event. -/
structure DeltaContent where
  type : String
  text : DeltaText
  deriving DecidableEq

/-- One item of `tool_call.code_interpreter.outputs`.  The source reads
`output.logs` when `output.type == "logs"` and `output.value` otherwise. -/
structure ToolOutput where
  type : String
  logs : String
  value : String
  deriving DecidableEq

/-- The `code_interpreter` sub-object of a tool call.  A `None` input and a
`None` output list are modelled as `""` and `[]` (both Python-falsy). -/
structure CodeInterpreter where
  input : String
  outputs : List ToolOutput
  deriving DecidableEq

/-- One item of `step_details.tool_calls`. -/
structure ToolCall where
  type : String
  code_interpreter : CodeInterpreter
  deriving DecidableEq

/-- The `step_details` of a `thread.run.step.delta` event. -/
structure StepDetails where
  type : String
  tool_calls : List ToolCall
  deriving DecidableEq

/-- The `file_path` sub-object of an annotation. -/
structure FilePathRef where
  file_id : String
  deriving DecidableEq

/-- One annotation of a completed message's content block
(`annotation.type`, `annotation.text`, `annotation.file_path.file_id`,
`annotation.file_id`). -/
structure Annot where
  type : String
  text : String
  file_path : FilePathRef
  file_id : String
  deriving DecidableEq

/-- The `text` sub-object of a completed message's content block; the source
only reads its `annotations` list. -/
structure BlockText where
  annotations : List Annot
  deriving DecidableEq

/-- One content block of a completed message. -/
structure ContentBlock where
  text : BlockText
  deriving DecidableEq

/-- A stream event, discriminated exactly as the `event.event` string chain
in `OpenAIAssistant.chat` discriminates it. -/
inductive Event where
  | messageDelta (content : List DeltaContent)
  | runStepDelta (step_details : Option StepDetails)
  | messageCompleted (content : List ContentBlock)
  | other (name : String)
  deriving DecidableEq

/-- The observable output of the interpreter: the strings yielded to the
caller, the strings printed to the console (side channel), and the strings
recorded at informational log level. -/
structure ChatOut where
  yields : List String
  console : List String
  info : List String
  deriving DecidableEq

/-- No output on any channel. -/
def ChatOut.empty : ChatOut := ⟨[], [], []⟩

/-- Channel-wise concatenation of outputs, in order. -/
def ChatOut.app (a b : ChatOut) : ChatOut :=
  ⟨a.yields ++ b.yields, a.console ++ b.console, a.info ++ b.info⟩

/-- Model of Python `s.split("/")[-1]`: the suffix of `s` after its last
`'/'` (the whole of `s` when it has none). -/
def lastSegment (s : String) : String :=
  ⟨(s.data.reverse.takeWhile (fun c => c != '/')).reverse⟩

/-- Processing of one `tool_call` inside the `thread.run.step.delta` branch
of `chat` (source lines 84-93): echo the code input when present (guarded a
second time by `stream_tool_outputs`), print `"logs"` outputs to the
console, log every other output at info level as `"Output: <value>"`. -/
def processToolCall (stream_tool_outputs : Bool) (tc : ToolCall) : ChatOut :=
  if tc.type = "code_interpreter" then
    { yields :=
        if tc.code_interpreter.input ≠ "" then
          (if stream_tool_outputs then [tc.code_interpreter.input] else [])
        else [],
      console := tc.code_interpreter.outputs.filterMap
        (fun o => if o.type = "logs" then some o.logs else none),
      info := tc.code_interpreter.outputs.filterMap
        (fun o => if o.type = "logs" then none else some ("Output: " ++ o.value)) }
  else ChatOut.empty

/-- Dispatch on one annotation of a completed message (source lines 96-107):
derive `object_name` from the display text, resolve `"file_path"` and
`"file"` annotations through the given resolver, and ignore every other
annotation kind.  `resolve` abstracts `_create_s3_download_url`, taking the
remote file id and the object name. -/
def resolveAnnot (resolve : String → String → String) (a : Annot) : Option String :=
  if a.type = "file_path" then some (resolve a.file_path.file_id (lastSegment a.text))
  else if a.type = "file" then some (resolve a.file_id (lastSegment a.text))
  else none

/-- Processing of one stream event by the `async for` loop of `chat`
(source lines 73-107).  Note the whole `thread.run.step.delta` branch is
guarded by `self.stream_tool_outputs` at the `elif`. -/
def processEvent (stream_tool_outputs : Bool) (resolve : String → String → String) :
    Event → ChatOut
  | .messageDelta content =>
    if content.isEmpty then ChatOut.empty
    else
      { yields := content.filterMap (fun c => if c.type = "text" then some c.text.value else none),
        console := [], info := [] }
  | .runStepDelta step_details =>
    if stream_tool_outputs then
      match step_details with
      | none => ChatOut.empty
      | some sd =>
        if sd.type = "tool_calls" then
          sd.tool_calls.foldr (fun tc acc => (processToolCall stream_tool_outputs tc).app acc)
            ChatOut.empty
        else ChatOut.empty
    else ChatOut.empty
  | .messageCompleted content =>
    { yields := content.flatMap (fun cb =>
        if cb.text.annotations.isEmpty then []
        else cb.text.annotations.filterMap (resolveAnnot resolve)),
      console := [], info := [] }
  | .other _ => ChatOut.empty

/-- The whole event loop of `chat`: each event is fully processed, in
arrival order, and its outputs appended channel-wise. -/
def processStream (stream_tool_outputs : Bool) (resolve : String → String → String)
    (events : List Event) : ChatOut :=
  events.foldr (fun e acc => (processEvent stream_tool_outputs resolve e).app acc) ChatOut.empty

/-- The text fragments an event carries as a message delta (the input-side
reading of a TextDelta event, for stating stream claims). -/
def deltaTexts : Event → List String
  | .messageDelta content => content.map (fun c => c.text.value)
  | _ => []

/-- Recognizer for a TextDelta event: a message delta all of whose content
items are of type `"text"`. -/
def isTextOnlyDelta : Event → Bool
  | .messageDelta content => content.all (fun c => c.type = "text")
  | _ => false

/-- The console forwardings a tool-step produces when its outputs are
examined: the `logs` text of each `"logs"` output item of each
code-interpreter tool call, in order. -/
def logsOf (sd : StepDetails) : List String :=
  sd.tool_calls.flatMap (fun tc =>
    if tc.type = "code_interpreter" then
      tc.code_interpreter.outputs.filterMap (fun o => if o.type = "logs" then some o.logs else none)
    else [])

/-- The informational log records a tool-step produces when its outputs are
examined: `"Output: <value>"` for each non-`"logs"` output item of each
code-interpreter tool call, in order. -/
def infoOf (sd : StepDetails) : List String :=
  sd.tool_calls.flatMap (fun tc =>
    if tc.type = "code_interpreter" then
      tc.code_interpreter.outputs.filterMap
        (fun o => if o.type = "logs" then none else some ("Output: " ++ o.value))
    else [])

/-- The code-input echoes a tool-step yields when the surfacing flag is on:
the non-empty `input` of each code-interpreter tool call, in order. -/
def inputEchoes (sd : StepDetails) : List String :=
  sd.tool_calls.flatMap (fun tc =>
    if tc.type = "code_interpreter" ∧ tc.code_interpreter.input ≠ "" then
      [tc.code_interpreter.input]
    else [])

/-- An annotation kind the dispatch in `chat` actually resolves. -/
def isResolvable (a : Annot) : Bool :=
  a.type = "file_path" ∨ a.type = "file"

/-- The remote file id the dispatch in `chat` passes to the resolver for an
annotation: `annotation.file_path.file_id` for kind `"file_path"`, and
`annotation.file_id` for kind `"file"`. -/
def refId (a : Annot) : String :=
  if a.type = "file_path" then a.file_path.file_id else a.file_id

/-- Session state relevant to `_initialize_thread`; the Python attribute
`self.thread_id` is a string whose emptiness is its truthiness. -/
structure SessionState where
  thread_id : String
  deriving DecidableEq

/-- A remote thread-service call issued by `_initialize_thread`. -/
inductive ThreadCall where
  | retrieve (thread_id : String)
  | create
  deriving DecidableEq

/-- `_initialize_thread` (source lines 34-42): retrieve when a thread id is
already pinned, otherwise create one and pin the id the service returned
(`new_id` models `thread.id`).  Returns the new state and the remote calls
issued. -/
def initializeThread (new_id : String) (s : SessionState) : SessionState × List ThreadCall :=
  if s.thread_id ≠ "" then (s, [ThreadCall.retrieve s.thread_id])
  else ({ thread_id := new_id }, [ThreadCall.create])

/-- Repeated calls to `_initialize_thread`, threading the session state;
`new_ids` supplies the id the remote create would return at each call. -/
def initializeThreadMany : List String → SessionState → SessionState × List ThreadCall
  | [], s => (s, [])
  | id :: rest, s =>
    ((initializeThreadMany rest (initializeThread id s).1).1,
     (initializeThread id s).2 ++ (initializeThreadMany rest (initializeThread id s).1).2)

/-- One tool binding of an attachment entry. -/
structure AttachmentTool where
  type : String
  deriving DecidableEq

/-- One entry of the message payload's `attachments` list. -/
structure Attachment where
  file_id : String
  tools : List AttachmentTool
  deriving DecidableEq

/-- The `message_params` dictionary built by `chat` (source lines 54-67). -/
structure MessageParams where
  thread_id : String
  role : String
  content : String
  attachments : Option (List Attachment)
  deriving DecidableEq

/-- Construction of `message_params` in `chat`: role `"user"`, the literal
text, and an `attachments` key added only when `self.uploaded_file` is set
(`uploaded_file` models its `id`). -/
def buildMessageParams (thread_id : String) (user_input : String)
    (uploaded_file : Option String) : MessageParams :=
  match uploaded_file with
  | some fid =>
    { thread_id := thread_id, role := "user", content := user_input,
      attachments := some [{ file_id := fid, tools := [{ type := "code_interpreter" }] }] }
  | none =>
    { thread_id := thread_id, role := "user", content := user_input, attachments := none }

/-- Outcomes of the collaborators `_create_s3_download_url` calls, one
resolver invocation at a time: the remote content download, the staging-file
write (with `writeCreates` recording whether the attempted write left a file
on disk), the S3 upload, and whether the final `unlink` succeeds. -/
structure ResolveEnv where
  download : Except String String
  writeRes : Except String Unit
  writeCreates : Bool
  upload : Except String String
  unlinkOk : Bool

/-- Observable outcome of one `_create_s3_download_url` call: the returned
string (the function catches every exception, so it always returns), whether
the staging file is still on disk afterwards, and the warnings logged. -/
structure ResolveResult where
  ret : String
  fileExistsAfter : Bool
  warnings : List String
  deriving DecidableEq

/-- The warning logged when cleanup of the staging file fails. -/
def cleanupWarning : String := "Failed to clean up temporary file"

/-- `_create_s3_download_url` (source lines 112-128): download, stage,
upload, format the markdown link; any exception becomes the inline error
string; the `finally` block unlinks the staging file with `missing_ok=True`
and downgrades an unlink failure to a warning. -/
def createS3DownloadUrl (env : ResolveEnv) (object_name : String) : ResolveResult :=
  let body : Except String String :=
    match env.download with
    | .error e => .error e
    | .ok _ =>
      match env.writeRes with
      | .error e => .error e
      | .ok _ =>
        match env.upload with
        | .error e => .error e
        | .ok url => .ok ("\n\nDownload file: [" ++ object_name ++ "](" ++ url ++ ")\n")
  let created : Bool :=
    match env.download with
    | .ok _ =>
      match env.writeRes with
      | .ok _ => true
      | .error _ => env.writeCreates
    | .error _ => false
  { ret :=
      match body with
      | .ok s => s
      | .error e => "\nError creating download link: " ++ e ++ "\n",
    fileExistsAfter := if env.unlinkOk then false else created,
    warnings := if env.unlinkOk then [] else [cleanupWarning] }

/-- Whether an `Except`-modelled collaborator call succeeded. -/
def exceptOk {α : Type} : Except String α → Bool
  | .ok _ => true
  | .error _ => false

/-- Model of Python `os.path.basename`: the suffix after the last `'/'`. -/
def basename (p : String) : String :=
  ⟨(p.data.reverse.takeWhile (fun c => c != '/')).reverse⟩

/-- A remote S3 request issued by `S3Uploader.upload_file`, with the
parameters the source passes. -/
inductive S3Action where
  | uploadFile (file_path : String) (bucket : String) (key : String)
  | presign (operation : String) (bucket : String) (key : String) (expiresIn : Nat)
  deriving DecidableEq

/-- Outcomes of the two S3 client calls inside `upload_file`. -/
structure S3Env where
  uploadRes : Except String Unit
  presignRes : Except String String

/-- Observable outcome of `S3Uploader.upload_file`: the returned URL or the
re-raised error, and the S3 requests attempted, in order. -/
structure S3Result where
  ret : Except String String
  actions : List S3Action

/-- `S3Uploader.upload_file` (source lines 25-43): key the object by the
basename of the local path, upload, then request a presigned `get_object`
URL with `ExpiresIn=3600`; any failure is logged and re-raised. -/
def upload_file (bucket : String) (env : S3Env) (file_path : String) : S3Result :=
  match env.uploadRes with
  | .error e => { ret := .error e, actions := [S3Action.uploadFile file_path bucket (basename file_path)] }
  | .ok _ =>
    match env.presignRes with
    | .error e =>
      { ret := .error e,
        actions := [S3Action.uploadFile file_path bucket (basename file_path),
                    S3Action.presign "get_object" bucket (basename file_path) 3600] }
    | .ok url =>
      { ret := .ok url,
        actions := [S3Action.uploadFile file_path bucket (basename file_path),
                    S3Action.presign "get_object" bucket (basename file_path) 3600] }

/-- Concrete two-event text-delta stream used to instantiate the stream
claims. -/
def exTextEvents : List Event :=
  [Event.messageDelta [⟨"text", ⟨"Hi "⟩⟩], Event.messageDelta [⟨"text", ⟨"there!"⟩⟩]]

/-- A content block carrying one annotation of a kind the dispatch does not
handle (the remote service's citation kind). -/
def exCitationBlock : ContentBlock := ⟨⟨[⟨"file_citation", "src/a.txt", ⟨"f9"⟩, "f9"⟩]⟩⟩

/-- A tool-call step whose code-interpreter call carries one `"logs"` output
item. -/
def exLogsStep : StepDetails :=
  ⟨"tool_calls", [⟨"code_interpreter", ⟨"", [⟨"logs", "hello", ""⟩]⟩⟩]⟩

/-- A tool-call step whose code-interpreter call carries a code input and one
output item of an unclassified kind. -/
def exImageStep : StepDetails :=
  ⟨"tool_calls", [⟨"code_interpreter", ⟨"print(3)", [⟨"image", "", "3"⟩]⟩⟩]⟩

/-! Helper lemmas about the interpreter. -/

theorem processStream_cons (f : Bool) (r : String → String → String) (e : Event)
    (es : List Event) :
    processStream f r (e :: es) = (processEvent f r e).app (processStream f r es) := rfl

theorem filterMap_text_all (cs : List DeltaContent)
    (h : cs.all (fun c => c.type = "text") = true) :
    cs.filterMap (fun c => if c.type = "text" then some c.text.value else none)
      = cs.map (fun c => c.text.value) := by
  induction cs with
  | nil => rfl
  | cons c cs ih =>
    simp only [List.all_cons, Bool.and_eq_true, decide_eq_true_eq] at h
    simp [List.filterMap_cons, h.1, ih h.2]

theorem processEvent_textDelta (f : Bool) (r : String → String → String) (e : Event)
    (h : isTextOnlyDelta e = true) :
    processEvent f r e = { yields := deltaTexts e, console := [], info := [] } := by
  cases e with
  | messageDelta cs =>
    cases cs with
    | nil => rfl
    | cons c cs =>
      have h' : (c :: cs).all (fun x => x.type = "text") = true := by
        simpa [isTextOnlyDelta] using h
      simp [processEvent, deltaTexts, filterMap_text_all _ h']
  | runStepDelta sd => simp [isTextOnlyDelta] at h
  | messageCompleted _ => simp [isTextOnlyDelta] at h
  | other _ => simp [isTextOnlyDelta] at h

theorem processStream_textOnly (f : Bool) (r : String → String → String) (events : List Event)
    (h : ∀ e ∈ events, isTextOnlyDelta e = true) :
    (processStream f r events).yields = events.flatMap deltaTexts := by
  induction events with
  | nil => rfl
  | cons e es ih =>
    rw [processStream_cons]
    have he : isTextOnlyDelta e = true := h e (by simp)
    have hes : ∀ x ∈ es, isTextOnlyDelta x = true := fun x hx => h x (by simp [hx])
    simp [ChatOut.app, processEvent_textDelta f r e he, ih hes]

/-- C1: for every finite stream consisting only of TextDelta events, the
fragments yielded by the interpreter are exactly the input text-delta
fragments in order, so their concatenations agree. -/
theorem chat_textDelta_concat (f : Bool) (r : String → String → String) (events : List Event)
    (h : ∀ e ∈ events, isTextOnlyDelta e = true) :
    (processStream f r events).yields = events.flatMap deltaTexts
    ∧ String.join ((processStream f r events).yields)
      = String.join (events.flatMap deltaTexts) :=
  ⟨processStream_textOnly f r events h, congrArg String.join (processStream_textOnly f r events h)⟩

/-- Witness for C1 on a concrete two-event stream. -/
theorem chat_textDelta_concat_witness :
    (processStream true (fun _ _ => "x") exTextEvents).yields = exTextEvents.flatMap deltaTexts
    ∧ String.join ((processStream true (fun _ _ => "x") exTextEvents).yields)
      = String.join (exTextEvents.flatMap deltaTexts) :=
  chat_textDelta_concat true (fun _ _ => "x") exTextEvents (by decide)

theorem resolveAnnot_eq (r : String → String → String) (a : Annot) :
    resolveAnnot r a
      = if isResolvable a then some (r (refId a) (lastSegment a.text)) else none := by
  unfold resolveAnnot isResolvable refId
  by_cases h1 : a.type = "file_path"
  · simp [h1]
  · by_cases h2 : a.type = "file" <;> simp [h1, h2]

theorem filterMap_guard_eq {α β : Type} (p : α → Bool) (g : α → β) (l : List α) :
    l.filterMap (fun a => if p a then some (g a) else none) = (l.filter p).map g := by
  induction l with
  | nil => rfl
  | cons a l ih =>
    by_cases h : p a <;> simp [List.filterMap_cons, List.filter_cons, h, ih]

theorem filterMap_isEmpty_guard {α β : Type} (g : α → Option β) (l : List α) :
    (if l.isEmpty then [] else l.filterMap g) = l.filterMap g := by
  cases l <;> simp

/-- C3 (amended): a MessageCompleted event yields one resolution result per
annotation of kind `"file_path"` or `"file"`, in annotation order;
annotations of any other kind are dropped without a yield. -/
theorem messageCompleted_resolvable_results (f : Bool) (r : String → String → String)
    (blocks : List ContentBlock) :
    (processEvent f r (Event.messageCompleted blocks)).yields
      = (blocks.flatMap (fun cb => cb.text.annotations.filter isResolvable)).map
          (fun a => r (refId a) (lastSegment a.text)) := by
  have h1 : ∀ cb : ContentBlock,
      (if cb.text.annotations.isEmpty then ([] : List String)
        else cb.text.annotations.filterMap (resolveAnnot r))
        = (cb.text.annotations.filter isResolvable).map
            (fun a => r (refId a) (lastSegment a.text)) := by
    intro cb
    rw [filterMap_isEmpty_guard, show resolveAnnot r = fun a =>
        if isResolvable a then some (r (refId a) (lastSegment a.text)) else none
      from funext (resolveAnnot_eq r)]
    exact filterMap_guard_eq _ _ _
  show (blocks.flatMap fun cb =>
      if cb.text.annotations.isEmpty then []
      else cb.text.annotations.filterMap (resolveAnnot r)) = _
  simp only [h1]
  exact (List.map_flatMap _ _ _).symm

/-- C3 counterexample: a completed message carrying exactly one annotation,
of kind `"file_citation"`, yields no resolution result at all, so an event
with N annotations in total does not always yield N results. -/
theorem messageCompleted_unresolved_kind_counterexample :
    exCitationBlock.text.annotations.length = 1
    ∧ (processStream true (fun _ _ => "RESOLVED")
        [Event.messageCompleted [exCitationBlock]]).yields = [] :=
  ⟨rfl, by decide⟩

theorem foldr_toolCalls_channels (f : Bool) (tcs : List ToolCall) :
    tcs.foldr (fun tc acc => (processToolCall f tc).app acc) ChatOut.empty
      = ⟨tcs.flatMap (fun tc => (processToolCall f tc).yields),
         tcs.flatMap (fun tc => (processToolCall f tc).console),
         tcs.flatMap (fun tc => (processToolCall f tc).info)⟩ := by
  induction tcs with
  | nil => rfl
  | cons tc tcs ih =>
    show (processToolCall f tc).app
        (tcs.foldr (fun tc acc => (processToolCall f tc).app acc) ChatOut.empty) = _
    rw [ih]
    simp [ChatOut.app]

theorem processToolCall_console (f : Bool) (tc : ToolCall) :
    (processToolCall f tc).console
      = if tc.type = "code_interpreter" then
          tc.code_interpreter.outputs.filterMap
            (fun o => if o.type = "logs" then some o.logs else none)
        else [] := by
  by_cases h : tc.type = "code_interpreter" <;> simp [processToolCall, h, ChatOut.empty]

theorem processToolCall_info (f : Bool) (tc : ToolCall) :
    (processToolCall f tc).info
      = if tc.type = "code_interpreter" then
          tc.code_interpreter.outputs.filterMap
            (fun o => if o.type = "logs" then none else some ("Output: " ++ o.value))
        else [] := by
  by_cases h : tc.type = "code_interpreter" <;> simp [processToolCall, h, ChatOut.empty]

theorem processToolCall_yields_true (tc : ToolCall) :
    (processToolCall true tc).yields
      = if tc.type = "code_interpreter" ∧ tc.code_interpreter.input ≠ "" then
          [tc.code_interpreter.input]
        else [] := by
  by_cases h1 : tc.type = "code_interpreter" <;> by_cases h2 : tc.code_interpreter.input = "" <;>
    simp [processToolCall, h1, h2, ChatOut.empty]

theorem processEvent_runStep_true (r : String → String → String) (sd : StepDetails)
    (h : sd.type = "tool_calls") :
    processEvent true r (Event.runStepDelta (some sd))
      = ⟨inputEchoes sd, logsOf sd, infoOf sd⟩ := by
  show (if sd.type = "tool_calls" then
      sd.tool_calls.foldr (fun tc acc => (processToolCall true tc).app acc) ChatOut.empty
    else ChatOut.empty) = _
  rw [if_pos h, foldr_toolCalls_channels]
  simp only [processToolCall_yields_true, processToolCall_console, processToolCall_info,
    inputEchoes, logsOf, infoOf]

/-- C5 (amended): logs output items of a code-interpreter tool step are
forwarded to the interactive console only when surface_tool_output is true;
they are then a side channel, never part of the yielded sequence, whose
fragments are exactly the code-input echoes. -/
theorem toolLogs_console_when_surfaced (r : String → String → String) (sd : StepDetails)
    (h : sd.type = "tool_calls") :
    (processEvent true r (Event.runStepDelta (some sd))).console = logsOf sd
    ∧ (processEvent true r (Event.runStepDelta (some sd))).yields = inputEchoes sd := by
  rw [processEvent_runStep_true r sd h]
  exact ⟨rfl, rfl⟩

/-- Witness for C5 on a concrete tool step with one logs output. -/
theorem toolLogs_console_when_surfaced_witness :
    (processEvent true (fun _ _ => "") (Event.runStepDelta (some exLogsStep))).console
      = logsOf exLogsStep
    ∧ (processEvent true (fun _ _ => "") (Event.runStepDelta (some exLogsStep))).yields
      = inputEchoes exLogsStep :=
  toolLogs_console_when_surfaced (fun _ _ => "") exLogsStep rfl

/-- C5 counterexample: with surface_tool_output false, the same tool step
with a logs output item forwards nothing to the console, while with the flag
true it forwards the logs text, so the forwarding is conditioned on the
flag. -/
theorem toolLogs_flag_gating_counterexample :
    (processStream false (fun _ _ => "")
        [Event.runStepDelta (some exLogsStep)]).console = []
    ∧ (processStream true (fun _ _ => "")
        [Event.runStepDelta (some exLogsStep)]).console = ["hello"] :=
  ⟨rfl, by decide⟩

/-- C8 (amended): tool output items are examined only when
surface_tool_output is true; each output item that is not a `"logs"` item is
then recorded at informational log level as `"Output: <value>"` and is never
yielded (the yields are exactly the code-input echoes) nor printed to the
console. -/
theorem toolOutput_unclassified_logged (r : String → String → String) (sd : StepDetails)
    (h : sd.type = "tool_calls") :
    (processEvent true r (Event.runStepDelta (some sd))).info = infoOf sd
    ∧ (processEvent true r (Event.runStepDelta (some sd))).yields = inputEchoes sd
    ∧ (processEvent true r (Event.runStepDelta (some sd))).console = logsOf sd := by
  rw [processEvent_runStep_true r sd h]
  exact ⟨rfl, rfl, rfl⟩

/-- Witness for C8 on a concrete tool step with one unclassified output. -/
theorem toolOutput_unclassified_logged_witness :
    (processEvent true (fun _ _ => "") (Event.runStepDelta (some exImageStep))).info
      = infoOf exImageStep
    ∧ (processEvent true (fun _ _ => "") (Event.runStepDelta (some exImageStep))).yields
      = inputEchoes exImageStep
    ∧ (processEvent true (fun _ _ => "") (Event.runStepDelta (some exImageStep))).console
      = logsOf exImageStep :=
  toolOutput_unclassified_logged (fun _ _ => "") exImageStep rfl

/-- C8 counterexample: with surface_tool_output false, a tool step carrying
one unclassified output item records nothing at informational log level,
while with the flag true it records the item, so the recording is not
unconditional. -/
theorem toolOutput_unclassified_flag_counterexample :
    (processStream false (fun _ _ => "")
        [Event.runStepDelta (some exImageStep)]).info = []
    ∧ (processStream true (fun _ _ => "")
        [Event.runStepDelta (some exImageStep)]).info = ["Output: 3"] :=
  ⟨rfl, by decide⟩

theorem errorString_split (e : String) :
    "\nError creating download link: " ++ e ++ "\n"
      = "\nError creating download link:" ++ (" " ++ e ++ "\n") := by
  have h : ("\nError creating download link: " : String)
      = "\nError creating download link:" ++ " " := rfl
  rw [h, String.append_assoc, String.append_assoc, String.append_assoc]

/-- C2 (amended): on every exit path the resolver attempts to delete the
staging file; when the deletion succeeds the file no longer exists on
return, and a deletion failure is logged as a warning and never raised (the
function is total into ResolveResult), in which case the file may remain. -/
theorem resolver_cleanup (env : ResolveEnv) (object_name : String) :
    (env.unlinkOk = true → (createS3DownloadUrl env object_name).fileExistsAfter = false)
    ∧ (env.unlinkOk = false
        → (createS3DownloadUrl env object_name).warnings = [cleanupWarning]) := by
  constructor <;> intro h <;> simp [createS3DownloadUrl, h]

/-- Witness for C2 on a concrete successful resolution with successful
cleanup. -/
theorem resolver_cleanup_witness :
    (createS3DownloadUrl ⟨Except.ok "bytes", Except.ok (), true, Except.ok "u", true⟩
      "plot.png").fileExistsAfter = false :=
  (resolver_cleanup ⟨Except.ok "bytes", Except.ok (), true, Except.ok "u", true⟩ "plot.png").1 rfl

/-- C2 counterexample: when the unlink in the finally block itself fails
after a fully successful resolution, the call returns with the staging file
still on disk (the failure is only logged as a warning), so the file does
not cease to exist on every exit path. -/
theorem resolver_cleanup_counterexample :
    (createS3DownloadUrl ⟨Except.ok "bytes", Except.ok (), true,
        Except.ok "https://bucket/plot.png", false⟩ "plot.png").fileExistsAfter = true
    ∧ (createS3DownloadUrl ⟨Except.ok "bytes", Except.ok (), true,
        Except.ok "https://bucket/plot.png", false⟩ "plot.png").warnings = [cleanupWarning] :=
  ⟨rfl, rfl⟩

/-- C4: if the download, the staging write, or the upload fails, the
resolver returns (never raises, having caught the exception) an inline
error string beginning with the literal characters
"\nError creating download link:". -/
theorem resolver_inline_error (env : ResolveEnv) (object_name : String)
    (h : exceptOk env.download = false ∨ exceptOk env.writeRes = false
      ∨ exceptOk env.upload = false) :
    ∃ rest, (createS3DownloadUrl env object_name).ret
      = "\nError creating download link:" ++ rest := by
  obtain ⟨dl, wr, wc, up, un⟩ := env
  cases dl with
  | error e =>
    exact ⟨" " ++ e ++ "\n", errorString_split e⟩
  | ok d =>
    cases wr with
    | error e =>
      exact ⟨" " ++ e ++ "\n", errorString_split e⟩
    | ok u =>
      cases up with
      | error e =>
        exact ⟨" " ++ e ++ "\n", errorString_split e⟩
      | ok url => simp [exceptOk] at h

/-- Witness for C4 on a concrete failed download. -/
theorem resolver_inline_error_witness :
    ∃ rest, (createS3DownloadUrl ⟨Except.error "boom", Except.ok (), false,
        Except.ok "u", true⟩ "f.png").ret
      = "\nError creating download link:" ++ rest :=
  resolver_inline_error ⟨Except.error "boom", Except.ok (), false, Except.ok "u", true⟩
    "f.png" (Or.inl rfl)

/-- C7: when download, staging write and upload all succeed, the annotation
is resolved to exactly the markdown line whose label is the last
slash-separated segment of the annotation's display text and whose target
is the URL the upload collaborator returned. -/
theorem resolver_success_link (f : Bool) (d url : String) (wc un : Bool) (a : Annot)
    (h : a.type = "file") :
    (processEvent f
      (fun _ object_name =>
        (createS3DownloadUrl ⟨Except.ok d, Except.ok (), wc, Except.ok url, un⟩
          object_name).ret)
      (Event.messageCompleted [⟨⟨[a]⟩⟩])).yields
      = ["\n\nDownload file: [" ++ lastSegment a.text ++ "](" ++ url ++ ")\n"] := by
  have hne : a.type ≠ "file_path" := by rw [h]; decide
  simp [processEvent, resolveAnnot, hne, h, createS3DownloadUrl]

/-- Witness for C7: the end-to-end scenario with display text
"out/plot.png" and upload URL "https://bucket/plot.png". -/
theorem resolver_success_link_witness :
    (processEvent true
      (fun _ object_name =>
        (createS3DownloadUrl ⟨Except.ok "bytes", Except.ok (), true,
          Except.ok "https://bucket/plot.png", true⟩ object_name).ret)
      (Event.messageCompleted [⟨⟨[⟨"file", "out/plot.png", ⟨""⟩, "f1"⟩]⟩⟩])).yields
      = ["\n\nDownload file: [plot.png](https://bucket/plot.png)\n"] := by
  have h := resolver_success_link true "bytes" "https://bucket/plot.png" true true
    ⟨"file", "out/plot.png", ⟨""⟩, "f1"⟩ rfl
  exact h.trans (by decide)

theorem initializeThreadMany_pinned (new_ids : List String) (s : SessionState)
    (h : s.thread_id ≠ "") :
    initializeThreadMany new_ids s
      = (s, new_ids.map (fun _ => ThreadCall.retrieve s.thread_id)) := by
  induction new_ids with
  | nil => rfl
  | cons id rest ih =>
    have hstep : initializeThread id s = (s, [ThreadCall.retrieve s.thread_id]) := by
      simp [initializeThread, h]
    show ((initializeThreadMany rest (initializeThread id s).1).1,
      (initializeThread id s).2 ++ (initializeThreadMany rest (initializeThread id s).1).2) = _
    rw [hstep]
    simp [ih]

/-- C6: on a session whose thread id is already set, any number of calls to
the thread initializer leaves the session unchanged and issues only
retrieve calls for that id, never a create call. -/
theorem thread_pinning (new_ids : List String) (s : SessionState) (h : s.thread_id ≠ "") :
    (initializeThreadMany new_ids s).1 = s
    ∧ ThreadCall.create ∉ (initializeThreadMany new_ids s).2
    ∧ ∀ c ∈ (initializeThreadMany new_ids s).2, c = ThreadCall.retrieve s.thread_id := by
  rw [initializeThreadMany_pinned new_ids s h]
  refine ⟨rfl, by simp, ?_⟩
  intro c hc
  obtain ⟨a, _, he⟩ := List.mem_map.mp hc
  exact he.symm

/-- Witness for C6 on a session pinned to thread "t-1" and two further
initializer calls. -/
theorem thread_pinning_witness :
    (initializeThreadMany ["a", "b"] ⟨"t-1"⟩).1 = (⟨"t-1"⟩ : SessionState)
    ∧ ThreadCall.create ∉ (initializeThreadMany ["a", "b"] ⟨"t-1"⟩).2 := by
  have h := thread_pinning ["a", "b"] ⟨"t-1"⟩ (by decide)
  exact ⟨h.1, h.2.1⟩

/-- C9: the message payload carries role "user" and the literal user text,
and its attachments key is present exactly when a file is attached, in
which case it is a single entry binding the attached file's remote id to
the code-interpreter tool. -/
theorem message_payload (thread_id user_input : String) (uploaded_file : Option String) :
    (buildMessageParams thread_id user_input uploaded_file).role = "user"
    ∧ (buildMessageParams thread_id user_input uploaded_file).content = user_input
    ∧ (buildMessageParams thread_id user_input uploaded_file).thread_id = thread_id
    ∧ (buildMessageParams thread_id user_input uploaded_file).attachments
      = uploaded_file.map
          (fun fid => [{ file_id := fid, tools := [{ type := "code_interpreter" }] }]) := by
  cases uploaded_file <;> simp [buildMessageParams]

/-- C10: every successful upload_file call uploads under the key
basename(file_path) and requests the presigned get_object URL for that same
key with an expiration of exactly 3600 seconds. -/
theorem s3_upload_key_and_expiry (bucket file_path url : String) (env : S3Env)
    (h : (upload_file bucket env file_path).ret = Except.ok url) :
    (upload_file bucket env file_path).actions
      = [S3Action.uploadFile file_path bucket (basename file_path),
         S3Action.presign "get_object" bucket (basename file_path) 3600] := by
  obtain ⟨ur, pr⟩ := env
  cases ur with
  | error e => simp [upload_file] at h
  | ok u =>
    cases pr with
    | error e => simp [upload_file] at h
    | ok u2 => rfl

/-- Witness for C10 on a concrete successful upload. -/
theorem s3_upload_key_and_expiry_witness :
    (upload_file "bucket" ⟨Except.ok (), Except.ok "https://bucket/plot.png"⟩
      "/tmp/plot.png").actions
      = [S3Action.uploadFile "/tmp/plot.png" "bucket" (basename "/tmp/plot.png"),
         S3Action.presign "get_object" "bucket" (basename "/tmp/plot.png") 3600] :=
  s3_upload_key_and_expiry "bucket" "/tmp/plot.png" "https://bucket/plot.png"
    ⟨Except.ok (), Except.ok "https://bucket/plot.png"⟩ rfl

end AssistantModel
